import Mathlib

/-!
Verification development for `src/lstm_train.py`.

The script's observable behaviour is embedded shallowly: the filesystem is an
association list from paths to file data, pandas' `read_csv` (as called with
`index_col` and `parse_dates=True`) is modelled as a function from the
filesystem to `Except PyError DataFrame`, and `main` threads a `World` that
records the effect trace (prints, file reads/writes, plotting).  The pipeline
stages that the repository only sketches as comment stubs (Sequence Windower,
Trainer, TrainedModel persistence) are modelled from the specification and
marked as such on each definition.
-/

namespace LstmTrain

abbrev Path := String

/-- Content of a file as the script (through pandas) observes it: a missing
entry in the filesystem is a missing file; a present file is empty,
unparsable, raw binary, or a parsed CSV table (header row plus data rows of
string cells). -/
inductive FileData where
  | emptyFile : FileData
  | unparsable : FileData
  | binary (bytes : List Int) : FileData
  | csv (header : List String) (rows : List (List String)) : FileData
deriving DecidableEq, Repr

/-- The filesystem: an association list from paths to file data. -/
structure FileSystem where
  files : List (Path × FileData)
deriving DecidableEq, Repr

def FileSystem.read (fs : FileSystem) (p : Path) : Option FileData :=
  fs.files.lookup p

def FileSystem.write (fs : FileSystem) (p : Path) (d : FileData) : FileSystem :=
  ⟨(p, d) :: fs.files.filter (fun q => q.1 != p)⟩

/-- Exceptions the Python code can raise at the modelled call sites:
`FileNotFoundError`, `pandas.errors.EmptyDataError`,
`pandas.errors.ParserError`, `ValueError` (index column absent from the
header), `KeyError` (column subscript absent). -/
inductive PyError where
  | fileNotFound (path : Path)
  | emptyDataError
  | parserError
  | valueError (msg : String)
  | keyError (key : String)
deriving DecidableEq, Repr

/-- A pandas DataFrame as produced by `read_csv(..., index_col=c)`: the index
column's name and cells, and the remaining columns with their data rows, kept
in file order. -/
structure DataFrame where
  indexName : String
  index : List String
  columns : List String
  rows : List (List String)
deriving DecidableEq, Repr

/-- Model of `pandas.read_csv(path, index_col=indexCol, parse_dates=True)`:
a missing file raises `FileNotFoundError`, an empty file `EmptyDataError`, an
unparsable or binary file `ParserError` (ragged rows likewise), and a header
without the index column `ValueError`.  Otherwise the rows are returned in
file order, with the index column split out; pandas neither sorts the index
nor removes duplicate index values. -/
def read_csv (fs : FileSystem) (path : Path) (indexCol : String) :
    Except PyError DataFrame :=
  match fs.read path with
  | none => .error (.fileNotFound path)
  | some .emptyFile => .error .emptyDataError
  | some .unparsable => .error .parserError
  | some (.binary _) => .error .parserError
  | some (.csv header rows) =>
    if rows.any (fun r => r.length != header.length) then
      .error .parserError
    else
      match header.findIdx? (fun c => c == indexCol) with
      | none => .error (.valueError indexCol)
      | some i =>
        .ok { indexName := indexCol
              index := rows.map (fun r => r.getD i "")
              columns := header.eraseIdx i
              rows := rows.map (fun r => r.eraseIdx i) }

/-- A pandas Series, as obtained by subscripting a DataFrame with a column
name. -/
structure Series where
  name : String
  index : List String
  values : List String
deriving DecidableEq, Repr

/-- Model of `df[c]`: raises `KeyError` when `c` is not a column. -/
def DataFrame.getCol (df : DataFrame) (c : String) : Except PyError Series :=
  match df.columns.findIdx? (fun k => k == c) with
  | none => .error (.keyError c)
  | some j => .ok ⟨c, df.index, df.rows.map (fun r => r.getD j "")⟩

/-- Model of `df.head(n)`: the first `n` rows. -/
def DataFrame.head (df : DataFrame) (n : Nat) : DataFrame :=
  { df with index := df.index.take n, rows := df.rows.take n }

/-- Observable effects of the script, in order of occurrence. -/
inductive Effect where
  | printedStr (text : String)
  | printedFrame (df : DataFrame)
  | fsRead (path : Path)
  | fsWrite (path : Path)
  | styleUsed (style : String)
  | plotShown
deriving DecidableEq, Repr

def Effect.isFsWrite : Effect → Bool
  | .fsWrite _ => true
  | _ => false

/-- The path a read effect touches, if any. -/
def Effect.readPath : Effect → Option Path
  | .fsRead p => some p
  | _ => none

/-- World state threaded through the script: the filesystem and the effect
trace accumulated so far. -/
structure World where
  fs : FileSystem
  trace : List Effect
deriving DecidableEq, Repr

def World.emit (w : World) (e : Effect) : World :=
  { w with trace := w.trace ++ [e] }

/-- Embedding of `main` from `src/lstm_train.py`, line by line:
`print("Hello World!")`; `df = pd.read_csv('data/SBUX.csv', index_col='Date',
parse_dates=True)`; `print(df.head(5))`; `plt.style.use('ggplot')`;
`df['Volume'].plot(label='CLOSE', title='Star Bucks Stock Volume')`;
`plt.show()`.  The trailing comment stubs (define/compile/train/evaluate/save
the model) execute nothing.  An uncaught exception aborts the remainder. -/
def main (w : World) : Except PyError Unit × World :=
  let w := w.emit (.printedStr "Hello World!")
  let w := w.emit (.fsRead "data/SBUX.csv")
  match read_csv w.fs "data/SBUX.csv" "Date" with
  | .error e => (.error e, w)
  | .ok df =>
    let w := w.emit (.printedFrame (df.head 5))
    let w := w.emit (.styleUsed "ggplot")
    match df.getCol "Volume" with
    | .error e => (.error e, w)
    | .ok _series =>
      let w := w.emit .plotShown
      (.ok (), w)

/-- Embedding of the module's top level: the imports and the `def main` bind
names without observable effects; the `if __name__ == "__main__":` guard calls
`main()` only when the module runs as a script. -/
def runModule (name : String) (w : World) : Except PyError Unit × World :=
  if name = "__main__" then main w else (.ok (), w)

/-- Running the file as a script: Python exits with code 0 when `main`
returns, and with code 1 on an uncaught exception. -/
def runScript (w : World) : Nat × World :=
  match runModule "__main__" w with
  | (.ok _, w') => (0, w')
  | (.error _, w') => (1, w')

/-- Decidable lexicographic comparison of character lists, used to compare
ISO-format date strings chronologically. -/
def charListLt : List Char → List Char → Bool
  | _, [] => false
  | [], _ :: _ => true
  | a :: as, b :: bs => a < b || (a == b && charListLt as bs)

/-- Chronological comparison of ISO-format (`YYYY-MM-DD`) date strings, for
which lexicographic order coincides with date order. -/
def dateLtB (a b : String) : Bool := charListLt a.data b.data

/-- Whether a list of ISO-format date strings is strictly ascending. -/
def strictlyAscB : List String → Bool
  | [] => true
  | [_] => true
  | a :: b :: rest => dateLtB a b && strictlyAscB (b :: rest)

/-! ## Spec-modelled pipeline stages

The repository marks the model definition, training, evaluation and saving
only as empty comment stubs; the definitions below model those stages from
the specification so that the claims about them can be stated. -/

/-- Modelled from the spec: a `TimeSeriesRecord` is one calendar day's
observation, keyed by date, with numeric open/high/low/close/volume fields.
The source contains no such type; dates are day ordinals and numeric fields
are integers at the model's granularity. -/
structure TimeSeriesRecord where
  date : Nat
  «open» : Int
  high : Int
  low : Int
  close : Int
  volume : Int
deriving DecidableEq, Repr, Inhabited

/-- Modelled from the spec: a `Window` pairs an input sequence of lookback
length `L` with the target value at step `L+1`.  The source contains no
windowing code. -/
structure Window where
  input : List TimeSeriesRecord
  target : Int
deriving DecidableEq, Repr, Inhabited

/-- Modelled from the spec: `ConfigError`, raised for invalid parameters such
as a lookback length too large for the record count. -/
inductive ConfigError where
  | lookbackTooLarge (lookback count : Nat)
deriving DecidableEq, Repr

/-- Modelled from the spec: the Sequence Windower.  Given the ordered
records, a lookback length `L` and a target-field selector, it fails with a
`ConfigError` when `L ≥` record count, and otherwise produces one window per
starting offset `0 … count − L − 1`: the input is the `L` records starting at
the offset and the target is the selected field of the record that follows
them.  The source contains no windowing code. -/
def makeWindows (records : List TimeSeriesRecord) (lookback : Nat)
    (targetField : TimeSeriesRecord → Int) : Except ConfigError (List Window) :=
  if records.length ≤ lookback then
    .error (.lookbackTooLarge lookback records.length)
  else
    .ok ((List.range (records.length - lookback)).map (fun i =>
      { input := (records.drop i).take lookback
        target := targetField (records.getD (i + lookback) default) }))

/-- Modelled from the spec: the opaque, versioned `TrainedModel` artifact —
weights, an architecture descriptor and the normalization scale/offset.  The
source contains no model or persistence code. -/
structure TrainedModel where
  version : Nat
  archDepth : Nat
  weights : List Int
  normScale : Int
  normOffset : Int
deriving DecidableEq, Repr, Inhabited

/-- Modelled from the spec: serialization of a `TrainedModel` to a flat
integer artifact (version, architecture descriptor, normalization parameters,
then the length-prefixed weights). -/
def TrainedModel.serialize (m : TrainedModel) : List Int :=
  Int.ofNat m.version :: Int.ofNat m.archDepth :: m.normScale :: m.normOffset ::
    Int.ofNat m.weights.length :: m.weights

/-- Modelled from the spec: deserialization of a `TrainedModel` artifact;
fails on a malformed artifact. -/
def deserializeModel (data : List Int) : Option TrainedModel :=
  match data with
  | v :: d :: s :: o :: n :: ws =>
    if 0 ≤ v ∧ 0 ≤ d ∧ 0 ≤ n ∧ Int.ofNat ws.length = n then
      some ⟨v.toNat, d.toNat, ws, s, o⟩
    else none
  | _ => none

/-- Modelled from the spec: prediction of a `TrainedModel` on a fixed input
window — a linear readout over the stored weights, denormalized with the
stored scale and offset (a concrete stand-in for the unspecified recurrent
architecture; only its determinism in the artifact matters here). -/
def TrainedModel.predict (m : TrainedModel) (window : List Int) : Int :=
  m.normScale * ((m.weights.zip window).foldl (fun acc p => acc + p.1 * p.2) 0)
    + m.normOffset

/-- Modelled from the spec: saving the artifact to a filesystem path,
overwriting any existing file there. -/
def saveModel (fs : FileSystem) (path : Path) (m : TrainedModel) : FileSystem :=
  fs.write path (.binary m.serialize)

/-- Modelled from the spec: reloading an artifact from a filesystem path. -/
def loadModel (fs : FileSystem) (path : Path) : Option TrainedModel :=
  match fs.read path with
  | some (.binary data) => deserializeModel data
  | _ => none

/-- Modelled from the spec: a training loss value, either finite or
non-finite (the divergence case). -/
inductive LossValue where
  | finite (value : Int)
  | nonFinite
deriving DecidableEq, Repr

def LossValue.isFinite : LossValue → Bool
  | .finite _ => true
  | .nonFinite => false

/-- Modelled from the spec: `TrainingError`, raised on an empty training
partition or a non-finite loss. -/
inductive TrainingError where
  | emptyPartition
  | nonFiniteLoss (epoch : Nat)
deriving DecidableEq, Repr

/-- Modelled from the spec: the Trainer.  The spec fixes no concrete
optimizer, so the model abstracts it: `epochLoss e` is the training loss
after pass `e` and `fit` the fitted model when all passes stay finite.  The
Trainer fails with a `TrainingError` when the training partition is empty or
some pass's loss is non-finite. -/
def train (epochs : Nat) (epochLoss : Nat → LossValue)
    (fit : List Window → TrainedModel) (trainPart : List Window) :
    Except TrainingError TrainedModel :=
  if trainPart.isEmpty then
    .error .emptyPartition
  else
    match (List.range epochs).find? (fun e => !(epochLoss e).isFinite) with
    | some e => .error (.nonFiniteLoss e)
    | none => .ok (fit trainPart)

/-- Modelled from the spec: training followed by persisting the artifact; on
a `TrainingError` the run aborts and the filesystem is left untouched (no
partial artifact). -/
def trainAndSave (epochs : Nat) (epochLoss : Nat → LossValue)
    (fit : List Window → TrainedModel) (trainPart : List Window)
    (outPath : Path) (fs : FileSystem) :
    Except TrainingError TrainedModel × FileSystem :=
  match train epochs epochLoss fit trainPart with
  | .error e => (.error e, fs)
  | .ok m => (.ok m, saveModel fs outPath m)

/-- Modelled from the spec: the three fatal error kinds of the intended
pipeline. -/
inductive SpecError where
  | dataError
  | configError (e : ConfigError)
  | trainingError (e : TrainingError)
deriving DecidableEq, Repr

/-- Modelled from the spec: the Windower→Trainer portion of the intended
pipeline with a chronological split (the first `trainCount` windows train,
the rest validate); a `ConfigError` from the Windower aborts before any
training or saving. -/
def windowThenTrain (records : List TimeSeriesRecord) (lookback : Nat)
    (targetField : TimeSeriesRecord → Int) (trainCount : Nat) (epochs : Nat)
    (epochLoss : Nat → LossValue) (fit : List Window → TrainedModel)
    (outPath : Path) (fs : FileSystem) :
    Except SpecError TrainedModel × FileSystem :=
  match makeWindows records lookback targetField with
  | .error e => (.error (.configError e), fs)
  | .ok ws =>
    match trainAndSave epochs epochLoss fit (ws.take trainCount) outPath fs with
    | (.error e, fs') => (.error (.trainingError e), fs')
    | (.ok m, fs') => (.ok m, fs')

end LstmTrain

namespace LstmTrain

/-! ## Concrete inputs used by evaluations and witnesses -/

/-- A filesystem whose CSV has all required columns but rows out of date
order, with a duplicated date. -/
def fsOutOfOrder : FileSystem :=
  ⟨[("data/SBUX.csv", FileData.csv ["Date", "Open", "High", "Low", "Close", "Volume"]
     [["2020-01-02", "1", "1", "1", "1", "1"],
      ["2020-01-01", "1", "1", "1", "1", "1"],
      ["2020-01-01", "2", "2", "2", "2", "2"]])]⟩

/-- A filesystem whose CSV has a date index and a Volume column but none of
the open/high/low/close columns. -/
def fsMissingCols : FileSystem :=
  ⟨[("data/SBUX.csv", FileData.csv ["Date", "Volume"] [["2020-01-01", "100"]])]⟩

/-- A filesystem with a fully well-formed single-row CSV. -/
def fsComplete : FileSystem :=
  ⟨[("data/SBUX.csv", FileData.csv ["Date", "Open", "High", "Low", "Close", "Volume"]
     [["2020-01-01", "1", "1", "1", "1", "5"]])]⟩

/-- Three-record series used by the windower witnesses. -/
def recsW : List TimeSeriesRecord :=
  [⟨0, 1, 1, 1, 1, 1⟩, ⟨1, 2, 2, 2, 2, 2⟩, ⟨2, 3, 3, 3, 3, 3⟩]

/-- A constant finite training loss, for witnesses. -/
def constLoss : Nat → LossValue := fun _ => .finite 1

/-- A constant fitted model, for witnesses. -/
def constFit : List Window → TrainedModel := fun _ => default

/-! ## Claims -/

/-- C1: the spec claims the Data Loader sorts records by date ascending and
deduplicates dates.  The loader at `src/lstm_train.py:11` is
`pd.read_csv('data/SBUX.csv', index_col='Date', parse_dates=True)`, which
keeps the file's row order and duplicate dates: on a file whose rows are
dated 2020-01-02, 2020-01-01, 2020-01-01, the produced index is exactly that
list — not strictly ascending and with a duplicate. -/
theorem read_csv_keeps_unsorted_duplicated_order :
    (read_csv fsOutOfOrder "data/SBUX.csv" "Date").map DataFrame.index
      = .ok ["2020-01-02", "2020-01-01", "2020-01-01"]
    ∧ strictlyAscB ["2020-01-02", "2020-01-01", "2020-01-01"] = false
    ∧ ¬ (["2020-01-02", "2020-01-01", "2020-01-01"] : List String).Nodup :=
  ⟨rfl, by decide, by decide⟩

/-- C2: for `0 < L < N` the Windower succeeds, produces exactly `N − L`
windows, window `i` being the `L` records starting at offset `i`, and every
window's input length is `L`. -/
theorem makeWindows_count_and_input_length (records : List TimeSeriesRecord)
    (L : Nat) (sel : TimeSeriesRecord → Int) (_hpos : 0 < L)
    (hlt : L < records.length) :
    ∃ ws, makeWindows records L sel = .ok ws
      ∧ ws.length = records.length - L
      ∧ (∀ w ∈ ws, w.input.length = L)
      ∧ ∀ i : Nat, ∀ h : i < ws.length,
          (ws.get ⟨i, h⟩).input = (records.drop i).take L := by
  unfold makeWindows
  rw [if_neg (by omega)]
  refine ⟨_, rfl, by simp, ?_, ?_⟩
  · intro w hw
    simp only [List.mem_map, List.mem_range] at hw
    obtain ⟨i, hi, rfl⟩ := hw
    simp only [List.length_take, List.length_drop]
    omega
  · intro i h
    simp

/-- Witness for C2 at a three-record series with lookback 1. -/
theorem makeWindows_count_and_input_length_witness :
    ∃ ws, makeWindows recsW 1 TimeSeriesRecord.volume = .ok ws
      ∧ ws.length = recsW.length - 1
      ∧ (∀ w ∈ ws, w.input.length = 1)
      ∧ ∀ i : Nat, ∀ h : i < ws.length,
          (ws.get ⟨i, h⟩).input = (recsW.drop i).take 1 :=
  makeWindows_count_and_input_length recsW 1 TimeSeriesRecord.volume
    (by decide) (by decide)

end LstmTrain

namespace LstmTrain

/-- C3: with `L ≥ N` the Windower fails with a `ConfigError` (so zero windows
are produced), and in the pipeline the failure surfaces before any training
or saving: the result is the `ConfigError` and the filesystem is untouched. -/
theorem makeWindows_rejects_large_lookback (records : List TimeSeriesRecord)
    (L : Nat) (sel : TimeSeriesRecord → Int) (hge : records.length ≤ L) :
    makeWindows records L sel = .error (.lookbackTooLarge L records.length)
    ∧ ∀ (trainCount epochs : Nat) (epochLoss : Nat → LossValue)
        (fit : List Window → TrainedModel) (outPath : Path) (fs : FileSystem),
        windowThenTrain records L sel trainCount epochs epochLoss fit outPath fs
          = (.error (.configError (.lookbackTooLarge L records.length)), fs) := by
  have h1 : makeWindows records L sel
      = .error (.lookbackTooLarge L records.length) := by
    unfold makeWindows
    rw [if_pos hge]
  refine ⟨h1, fun trainCount epochs epochLoss fit outPath fs => ?_⟩
  unfold windowThenTrain
  rw [h1]

/-- Witness for C3 at a three-record series with lookback 3. -/
theorem makeWindows_rejects_large_lookback_witness :
    makeWindows recsW 3 TimeSeriesRecord.volume
      = .error (.lookbackTooLarge 3 recsW.length)
    ∧ windowThenTrain recsW 3 TimeSeriesRecord.volume 2 1 constLoss constFit
        "model.bin" fsComplete
      = (.error (.configError (.lookbackTooLarge 3 recsW.length)), fsComplete) :=
  ⟨(makeWindows_rejects_large_lookback recsW 3 TimeSeriesRecord.volume (by decide)).1,
   (makeWindows_rejects_large_lookback recsW 3 TimeSeriesRecord.volume (by decide)).2
     2 1 constLoss constFit "model.bin" fsComplete⟩

/-- C4: the spec claims the Loader fails with a `DataError` whenever a
required column (open/high/low/close/volume) is absent.  `read_csv` with
`index_col='Date'` only needs the `Date` column: on a file with columns
`Date, Volume` alone it succeeds, and the whole of `main` runs to completion
with no error. -/
theorem read_csv_accepts_missing_required_columns :
    (read_csv fsMissingCols "data/SBUX.csv" "Date").isOk = true
    ∧ (main ⟨fsMissingCols, []⟩).1 = .ok () :=
  ⟨rfl, rfl⟩

/-- C5: the spec claims exit code 0 exactly when the Save stage completed.
Running the script on a fully well-formed file exits with code 0, yet no
filesystem write ever occurs and the filesystem is unchanged — no Save stage
exists in the code. -/
theorem runScript_exits_zero_without_save :
    (runScript ⟨fsComplete, []⟩).1 = 0
    ∧ ((runScript ⟨fsComplete, []⟩).2.trace.all (fun e => !e.isFsWrite)) = true
    ∧ (runScript ⟨fsComplete, []⟩).2.fs = fsComplete :=
  ⟨rfl, by decide, rfl⟩

/-- C6: a Trainer run whose training partition is empty, or whose loss goes
non-finite at some pass, fails with a `TrainingError` and leaves the
filesystem untouched — no (partial) artifact is written. -/
theorem trainAndSave_aborts_without_artifact (epochs : Nat)
    (epochLoss : Nat → LossValue) (fit : List Window → TrainedModel)
    (trainPart : List Window) (outPath : Path) (fs : FileSystem)
    (hfail : trainPart = [] ∨ ∃ e, e < epochs ∧ epochLoss e = .nonFinite) :
    ∃ err, trainAndSave epochs epochLoss fit trainPart outPath fs
      = (.error err, fs) := by
  unfold trainAndSave train
  by_cases hemp : trainPart.isEmpty
  · simp only [hemp, if_true]
    exact ⟨.emptyPartition, rfl⟩
  · rcases hfail with h | ⟨e, he, hl⟩
    · exact absurd (by simp [h]) hemp
    · simp only [hemp, if_false]
      have hsome : ((List.range epochs).find?
          (fun x => !(epochLoss x).isFinite)).isSome := by
        rw [List.find?_isSome]
        exact ⟨e, List.mem_range.mpr he, by simp [hl, LossValue.isFinite]⟩
      obtain ⟨x, hx⟩ := Option.isSome_iff_exists.mp hsome
      rw [hx]
      exact ⟨.nonFiniteLoss x, rfl⟩

/-- Witness for C6 at an empty training partition. -/
theorem trainAndSave_aborts_without_artifact_witness :
    ∃ err, trainAndSave 1 constLoss constFit [] "model.bin" fsComplete
      = (.error err, fsComplete) :=
  trainAndSave_aborts_without_artifact 1 constLoss constFit [] "model.bin"
    fsComplete (Or.inl rfl)

end LstmTrain

namespace LstmTrain

/-- Helper: a DataFrame produced by `read_csv` carries the requested index
column name. -/
theorem read_csv_ok_indexName (fs : FileSystem) (p : Path) (c : String)
    (df : DataFrame) (h : read_csv fs p c = .ok df) : df.indexName = c := by
  unfold read_csv at h
  split at h
  · exact Except.noConfusion h
  · exact Except.noConfusion h
  · exact Except.noConfusion h
  · exact Except.noConfusion h
  · split at h
    · exact Except.noConfusion h
    · split at h
      · exact Except.noConfusion h
      · simp only [Except.ok.injEq] at h
        subst h
        rfl

/-- C7: `main` performs no filesystem writes: the filesystem component of the
world is returned unchanged, and every effect it appends to the trace is a
non-write (prints, one read, styling, plotting) — so no artifact is produced
in any run. -/
theorem main_writes_nothing (fs : FileSystem) (tr : List Effect) :
    (main ⟨fs, tr⟩).2.fs = fs
    ∧ ∃ l, (main ⟨fs, tr⟩).2.trace = tr ++ l
        ∧ l.all (fun e => !e.isFsWrite) = true := by
  unfold main
  simp only [World.emit]
  split
  · exact ⟨rfl, ⟨[.printedStr "Hello World!", .fsRead "data/SBUX.csv"],
      by simp, by decide⟩⟩
  · rename_i df heq
    split
    · exact ⟨rfl, ⟨[.printedStr "Hello World!", .fsRead "data/SBUX.csv",
        .printedFrame (df.head 5), .styleUsed "ggplot"],
        by simp, by simp [Effect.isFsWrite]⟩⟩
    · exact ⟨rfl, ⟨[.printedStr "Hello World!", .fsRead "data/SBUX.csv",
        .printedFrame (df.head 5), .styleUsed "ggplot", .plotShown],
        by simp, by simp [Effect.isFsWrite]⟩⟩

/-- C8: `main` takes nothing but the ambient world: whatever the filesystem
holds, the only path it reads is `data/SBUX.csv`, and any DataFrame it prints
was indexed by the `Date` column. -/
theorem main_reads_only_fixed_path (fs : FileSystem) :
    ((main ⟨fs, []⟩).2.trace.filterMap Effect.readPath) = ["data/SBUX.csv"]
    ∧ ∀ df : DataFrame, Effect.printedFrame df ∈ (main ⟨fs, []⟩).2.trace →
        df.indexName = "Date" := by
  unfold main
  simp only [World.emit]
  split
  · constructor
    · simp [Effect.readPath]
    · intro d hd
      simp at hd
  · rename_i df heq
    have hidx : df.indexName = "Date" :=
      read_csv_ok_indexName fs "data/SBUX.csv" "Date" df heq
    split
    · constructor
      · simp [Effect.readPath]
      · intro d hd
        simp at hd
        subst hd
        simpa [DataFrame.head] using hidx
    · constructor
      · simp [Effect.readPath]
      · intro d hd
        simp at hd
        subst hd
        simpa [DataFrame.head] using hidx

/-- The head DataFrame printed by `main` on the fully well-formed file. -/
def dfCompleteHead : DataFrame :=
  ⟨"Date", ["2020-01-01"], ["Open", "High", "Low", "Close", "Volume"],
   [["1", "1", "1", "1", "5"]]⟩

/-- Witness for C8 on the fully well-formed file. -/
theorem main_reads_only_fixed_path_witness :
    ((main ⟨fsComplete, []⟩).2.trace.filterMap Effect.readPath)
      = ["data/SBUX.csv"]
    ∧ dfCompleteHead.indexName = "Date" :=
  ⟨(main_reads_only_fixed_path fsComplete).1,
   (main_reads_only_fixed_path fsComplete).2 dfCompleteHead (by decide)⟩

/-- C9: saving a `TrainedModel` to a path and reloading it from that path
succeeds and yields a model with identical predictions on any fixed input
window. -/
theorem saveModel_loadModel_roundtrip (fs : FileSystem) (path : Path)
    (m : TrainedModel) (w : List Int) :
    (loadModel (saveModel fs path m) path).map (fun n => n.predict w)
      = some (m.predict w) := by
  have h1 : (saveModel fs path m).read path = some (.binary m.serialize) := by
    simp [saveModel, FileSystem.write, FileSystem.read, List.lookup]
  have h2 : deserializeModel m.serialize = some m := by
    simp [TrainedModel.serialize, deserializeModel]
  simp [loadModel, h1, h2]

/-- C10: the module-level guard: running the file as a script invokes `main`,
while importing it under any other module name performs nothing — no effect
and no state change beyond the binding of `main` itself. -/
theorem runModule_guard (name : String) (w : World) :
    runModule "__main__" w = main w
    ∧ (name ≠ "__main__" → runModule name w = (.ok (), w)) := by
  constructor
  · unfold runModule
    rw [if_pos rfl]
  · intro h
    unfold runModule
    rw [if_neg h]

/-- Witness for C10: importing under the name `lstm_train` runs nothing. -/
theorem runModule_guard_witness :
    runModule "__main__" ⟨⟨[]⟩, []⟩ = main ⟨⟨[]⟩, []⟩
    ∧ runModule "lstm_train" ⟨⟨[]⟩, []⟩ = (.ok (), (⟨⟨[]⟩, []⟩ : World)) :=
  ⟨(runModule_guard "lstm_train" ⟨⟨[]⟩, []⟩).1,
   (runModule_guard "lstm_train" ⟨⟨[]⟩, []⟩).2 (by decide)⟩

end LstmTrain
